import Mathlib

/-
Verification development for the Biome embedded service controller
(src/src-tauri/src/lib.rs): the archive installer (extract_zip,
extract_tar_gz) and the local service lifecycle manager
(start_engine_server, stop_server_sync, is_server_running,
is_server_ready, process_log_line and the two reader-loop bodies).

Shallow embedding conventions:
  - OS process handles are modelled by their pid (Nat); `Option Nat`
    models Rust's `Option<Child>`.
  - File bytes are `List Nat`.
  - The outcome of fallible OS interactions (try_wait, kill_tree,
    spawning, environment lookup) is passed in as explicit input the
    embedded function branches on, mirroring the Rust match arms.
  - Observable side effects (console output, Tauri event emission,
    log-file writes, process spawns/kills) are collected in an ordered
    `List Effect` trace.
-/

namespace Biome

/-- Rust `str::ends_with`, modelled on the character list of the string. -/
def strEndsWith (s suffix : String) : Bool :=
  suffix.data.isSuffixOf s.data

/-- Rust `str::contains` (case-sensitive substring test) on character lists. -/
def listContainsSub (pat : List Char) : List Char → Bool
  | [] => pat.isEmpty
  | c :: rest => pat.isPrefixOf (c :: rest) || listContainsSub pat rest

/-- Rust `str::contains` lifted to `String`. -/
def strContains (s pat : String) : Bool :=
  listContainsSub pat.data s.data

/-- An entry of a zip archive: its name and its byte contents. -/
structure ZipEntry where
  name : String
  bytes : List Nat
deriving DecidableEq, Repr

/-- An entry of a gzipped tar archive: its path and its byte contents. -/
structure TarEntry where
  path : String
  bytes : List Nat
deriving DecidableEq, Repr

/-- A file written to the destination bin directory by an extractor:
its filename, its bytes, and the permission bits set after writing
(`some 0o755` on the POSIX tar path, `none` on the Windows zip path). -/
structure WrittenFile where
  name : String
  bytes : List Nat
  mode : Option Nat
deriving DecidableEq, Repr

/-- Embedding of `extract_zip` (lib.rs lines 446-473): iterate zip
entries in order; the first entry whose name ends with `"uv.exe"` is
written to `bin_dir/uv.exe` and the loop breaks; with no match the
loop falls through and the function still returns `Ok(())` having
written nothing. Archive/entry read errors are I/O failures outside
this pure model, so the `Except` error branch is never taken here. -/
def extract_zip : List ZipEntry → Except String (Option WrittenFile)
  | [] => .ok none
  | e :: rest =>
    if strEndsWith e.name "uv.exe" then
      .ok (some { name := "uv.exe", bytes := e.bytes, mode := none })
    else
      extract_zip rest

/-- Embedding of `extract_tar_gz` (lib.rs lines 475-520): iterate tar
entries in order; the first entry whose path ends with `"/uv"` and not
with `"/uvx"` is written to `bin_dir/uv`, its permissions are set to
mode 0o755 (unix), and the loop breaks; with no match the loop falls
through and the function still returns `Ok(())` having written
nothing. -/
def extract_tar_gz : List TarEntry → Except String (Option WrittenFile)
  | [] => .ok none
  | e :: rest =>
    if strEndsWith e.path "/uv" && !(strEndsWith e.path "/uvx") then
      .ok (some { name := "uv", bytes := e.bytes, mode := some 0o755 })
    else
      extract_tar_gz rest

/-- Embedding of the process-wide `ServerState` (lib.rs lines 40-45):
the tracked child process (by pid), the port it was started on, and
the readiness flag. -/
structure ServerState where
  process : Option Nat
  port : Option Nat
  ready : Bool
deriving DecidableEq, Repr

/-- Observable side effects of the lifecycle operations, in program
order. -/
inductive Effect where
  /-- `println!`/`eprintln!` of a server line to the console. -/
  | consoleEcho (line : String) (isStderr : Bool)
  /-- `app.emit("server-log", line)` to the frontend. -/
  | emitLogEvent (line : String)
  /-- Evaluation of the readiness-marker test on a line. -/
  | readinessCheck (line : String)
  /-- `app.emit("server-ready", true)` to the frontend. -/
  | emitReadyEvent
  /-- `writeln!(log_file, line)` appended to server.log. -/
  | logAppend (line : String)
  /-- `file.flush()` of server.log. -/
  | logFlush
  /-- The best-effort `uv sync` subcommand run during start. -/
  | runSync
  /-- Spawn of the supervised server process, with the extra
  environment variables injected into the child. -/
  | spawnServer (pid : Nat) (extraEnv : List (String × String))
  /-- `kill_tree::blocking::kill_tree(pid)` attempt. -/
  | killTreeAttempt (pid : Nat)
  /-- Fallback `process.kill()` of the direct child. -/
  | directKill (pid : Nat)
  /-- `process.wait()` reaping the direct child. -/
  | waitChild (pid : Nat)
deriving DecidableEq, Repr

/-- Outcome of `Child::try_wait` as the Rust code matches on it. -/
inductive TryWaitResult where
  | exited (status : Int)
  | stillRunning
  | checkError
deriving DecidableEq, Repr

/-- Outcome of the blocking process-tree kill. -/
inductive KillTreeResult where
  | killed (count : Nat)
  | failed
deriving DecidableEq, Repr

/-- Readiness-marker scan of `process_log_line` (lib.rs line 1016):
`line.contains("SERVER READY") || line.contains("Uvicorn running on")`. -/
def server_ready_marker (line : String) : Bool :=
  strContains line "SERVER READY" || strContains line "Uvicorn running on"

/-- Embedding of `process_log_line` (lib.rs lines 1002-1025): echo the
line to the console, emit the `server-log` event, then test the
readiness markers; on a match set `ready := true` and emit the
`server-ready` event. The marker test happens on every line, so it is
recorded as a `readinessCheck` effect unconditionally. -/
def process_log_line (s : ServerState) (line : String) (isStderr : Bool) :
    ServerState × List Effect :=
  let effs := [Effect.consoleEcho line isStderr, Effect.emitLogEvent line,
               Effect.readinessCheck line]
  if server_ready_marker line then
    ({ s with ready := true }, effs ++ [Effect.emitReadyEvent])
  else
    (s, effs)

/-- Embedding of one iteration of a reader-thread loop body (lib.rs
lines 1038-1043 and 1059-1064): `process_log_line` first, then — when
the log file opened successfully — append the line to the log file and
flush it. -/
def reader_loop_body (s : ServerState) (line : String) (isStderr : Bool)
    (logFileOpen : Bool) : ServerState × List Effect :=
  let r := process_log_line s line isStderr
  (r.1, r.2 ++ (if logFileOpen then [Effect.logAppend line, Effect.logFlush] else []))

/-- Sequential processing of a list of (line, isStderr) pairs through
`process_log_line`, accumulating the effect trace. -/
def run_log_lines (s : ServerState) : List (String × Bool) → ServerState × List Effect
  | [] => (s, [])
  | lb :: rest =>
    let r := process_log_line s lb.1 lb.2
    let r2 := run_log_lines r.1 rest
    (r2.1, r.2 ++ r2.2)

/-- Number of `server-ready` event emissions in an effect trace. -/
def count_ready_events (effs : List Effect) : Nat :=
  (effs.filter (fun e => e = Effect.emitReadyEvent)).length

/-- Number of `server-log` event emissions in an effect trace. -/
def count_log_events (effs : List Effect) : Nat :=
  (effs.filter (fun e => match e with
    | Effect.emitLogEvent _ => true
    | _ => false)).length

/-- True when the trace contains a process spawn. -/
def spawns_process (effs : List Effect) : Bool :=
  effs.any (fun e => match e with
    | Effect.spawnServer _ _ => true
    | _ => false)

/-- HuggingFace token resolution in `start_engine_server` (lib.rs
lines 967-974): the configured `api_keys.huggingface` value when
non-empty, else the `HF_TOKEN` environment variable, else the
`HUGGING_FACE_HUB_TOKEN` environment variable. -/
def resolve_hf_token (configHuggingface : String)
    (hfTokenVar hfHubTokenVar : Option String) : Option String :=
  if !configHuggingface.isEmpty then
    some configHuggingface
  else
    match hfTokenVar with
    | some token => some token
    | none => hfHubTokenVar

/-- Environment variables injected into the child for a resolved token
(lib.rs lines 976-985): both `HF_TOKEN` and `HUGGING_FACE_HUB_TOKEN`
when found, nothing when not. -/
def hf_env_injection (token : Option String) : List (String × String) :=
  match token with
  | some t => [("HF_TOKEN", t), ("HUGGING_FACE_HUB_TOKEN", t)]
  | none => []

/-- Tail excerpt of the log taken in the immediate-exit branch (lib.rs
lines 1096-1104): `lines().rev().take(30)` collected and reversed
back, i.e. the last `n` lines in their original order. -/
def last_lines (n : Nat) (lines : List String) : List String :=
  (lines.reverse.take n).reverse

/-- Structured form of the error strings `start_engine_server` can
return (each carries exactly the data interpolated into the Rust
format string). -/
inductive StartError where
  /-- Server is already running on port `port` (the stored port, or 0
  when none is stored, via `unwrap_or(0)`). -/
  | alreadyRunning (port : Nat)
  /-- Engine dependencies not synced (no `.venv`). -/
  | depsNotSynced
  /-- The uv binary is not installed. -/
  | uvNotInstalled
  /-- Running the `uv sync` subcommand itself failed (`.output()` errored). -/
  | syncRunFailed
  /-- `cmd.spawn()` failed. -/
  | spawnFailed
  /-- The child exited within the grace window: exit status plus the
  tail excerpt of the log file. -/
  | immediateExit (status : Int) (logExcerpt : List String)
deriving DecidableEq, Repr

/-- Success summary of `start_engine_server`: the port and pid
interpolated into the `Ok` message. -/
structure StartSummary where
  port : Nat
  pid : Nat
deriving DecidableEq, Repr

/-- External-world inputs `start_engine_server` branches on, gathered
as one record: filesystem checks, outcomes of the subprocess
interactions, the configured token sources, the grace-period poll
result, and the log-file lines read back in the immediate-exit
branch. -/
structure StartEnv where
  /-- `engine_dir.join(".venv").exists()`. -/
  venvExists : Bool
  /-- `uv_binary.exists()`. -/
  uvBinaryExists : Bool
  /-- `uv sync` outcome: `none` when `.output()` itself errors,
  `some success` otherwise (a failed status is tolerated). -/
  syncRun : Option Bool
  /-- `cmd.spawn()` outcome: the child's pid, or `none` on failure. -/
  spawnResult : Option Nat
  /-- `config.api_keys.huggingface` (empty when unset or when
  `read_config` fell back to the default). -/
  configHuggingface : String
  /-- `std::env::var("HF_TOKEN")` as an option. -/
  hfTokenVar : Option String
  /-- `std::env::var("HUGGING_FACE_HUB_TOKEN")` as an option. -/
  hfHubTokenVar : Option String
  /-- `process.try_wait()` outcome after the 500 ms grace sleep. -/
  graceWait : TryWaitResult
  /-- Lines of server.log as read back in the immediate-exit branch. -/
  logLines : List String
deriving Repr

/-- Embedding of `start_engine_server` (lib.rs lines 880-1123) as a
sequential state transformer. Returns the post state, the ordered
effect trace, and the result. Stages, in source order: already-running
check, `.venv` check, uv-binary check, `ready := false` reset,
best-effort `uv sync`, token resolution and child-environment
injection, spawn, handle/port store, 500 ms grace sleep, one
`try_wait` poll (exit: clear handle/port and fail with the log tail;
still-running or poll error: report success). -/
def start_engine_server (s : ServerState) (env : StartEnv) (port : Nat) :
    ServerState × List Effect × Except StartError StartSummary :=
  if s.process.isSome then
    (s, [], .error (.alreadyRunning (s.port.getD 0)))
  else if !env.venvExists then
    (s, [], .error .depsNotSynced)
  else if !env.uvBinaryExists then
    (s, [], .error .uvNotInstalled)
  else
    let s1 : ServerState := { s with ready := false }
    match env.syncRun with
    | none => (s1, [Effect.runSync], .error .syncRunFailed)
    | some _ =>
      let extraEnv := hf_env_injection
        (resolve_hf_token env.configHuggingface env.hfTokenVar env.hfHubTokenVar)
      match env.spawnResult with
      | none => (s1, [Effect.runSync], .error .spawnFailed)
      | some pid =>
        let s2 : ServerState := { s1 with process := some pid, port := some port }
        let effs := [Effect.runSync, Effect.spawnServer pid extraEnv]
        match env.graceWait with
        | .exited status =>
          ({ s2 with process := none, port := none }, effs,
            .error (.immediateExit status (last_lines 30 env.logLines)))
        | .stillRunning => (s2, effs, .ok { port := port, pid := pid })
        | .checkError => (s2, effs, .ok { port := port, pid := pid })

/-- Embedding of `stop_server_sync` (lib.rs lines 1126-1156): with no
tracked process, fail with the not-running message; otherwise take the
handle, attempt a tree kill (falling back to a direct kill on
failure), wait for the direct child, clear `port` and `ready`, and
report success. -/
def stop_server_sync (s : ServerState) (k : KillTreeResult) :
    ServerState × List Effect × Except String String :=
  match s.process with
  | some pid =>
    let killEffs := match k with
      | .killed _ => [Effect.killTreeAttempt pid]
      | .failed => [Effect.killTreeAttempt pid, Effect.directKill pid]
    ({ process := none, port := none, ready := false },
      killEffs ++ [Effect.waitChild pid],
      .ok ("Server stopped (PID: " ++ toString pid ++ ")"))
  | none => (s, [], .error "No server is currently running")

/-- Embedding of `is_server_running` (lib.rs lines 1163-1190): with no
tracked process return false; otherwise poll `try_wait` — exited or
poll error both clear `handle`/`port` and return false, still-running
returns true. -/
def is_server_running (s : ServerState) (w : TryWaitResult) :
    ServerState × Bool :=
  match s.process with
  | some _ =>
    match w with
    | .exited _ => ({ s with process := none, port := none }, false)
    | .stillRunning => (s, true)
    | .checkError => ({ s with process := none, port := none }, false)
  | none => (s, false)

/-- Embedding of `is_server_ready` (lib.rs lines 1192-1196): return
the `ready` flag, no state change. -/
def is_server_ready (s : ServerState) : Bool :=
  s.ready

/-- Readiness part of the claimed ServiceState invariant:
`ready == true` implies the handle is non-empty. -/
def ready_handle_inv (s : ServerState) : Bool :=
  !s.ready || s.process.isSome

/-- Port part of the claimed ServiceState invariant: `port` is
non-empty iff the handle is non-empty. -/
def port_handle_inv (s : ServerState) : Bool :=
  s.port.isSome == s.process.isSome

/-- The full claimed ServiceState invariant. -/
def state_invariant (s : ServerState) : Bool :=
  ready_handle_inv s && port_handle_inv s

/-- A start environment in which every external interaction succeeds
and the grace-period poll sees the child still running. -/
def runningEnv : StartEnv :=
  { venvExists := true, uvBinaryExists := true, syncRun := some true,
    spawnResult := some 42, configHuggingface := "", hfTokenVar := none,
    hfHubTokenVar := none, graceWait := .stillRunning, logLines := [] }

/-- A start environment in which the child exits with status 1 during
the grace window, leaving two lines in the log file. -/
def crashEnv : StartEnv :=
  { venvExists := true, uvBinaryExists := true, syncRun := some true,
    spawnResult := some 42, configHuggingface := "", hfTokenVar := none,
    hfHubTokenVar := none, graceWait := .exited 1, logLines := ["a", "b"] }

/-- A start environment in which the grace-period `try_wait` poll
itself errors. -/
def pollErrEnv : StartEnv :=
  { venvExists := true, uvBinaryExists := true, syncRun := some true,
    spawnResult := some 42, configHuggingface := "", hfTokenVar := none,
    hfHubTokenVar := none, graceWait := .checkError, logLines := [] }

/-- Helper lemma: a path ending in "/uvx" does not end in "/uv" (the
final characters differ), so the explicit `!ends_with("/uvx")` guard
in `extract_tar_gz` is subsumed by the `ends_with("/uv")` test. -/
theorem strEndsWith_uvx_not_uv (p : String) (h : strEndsWith p "/uvx" = true) :
    strEndsWith p "/uv" = false := by
  unfold strEndsWith at h ⊢
  rw [List.isSuffixOf_iff_suffix] at h
  rw [Bool.eq_false_iff, Ne, List.isSuffixOf_iff_suffix]
  intro hc
  rcases List.suffix_or_suffix_of_suffix h hc with h1 | h1
  · exact absurd h1 (by decide)
  · exact absurd h1 (by decide)

/-- Helper lemma: the tar extractor writes the first entry whose path
ends in "/uv" (and stops there), with mode 0o755. -/
theorem extract_tar_gz_eq_find (entries : List TarEntry) :
    extract_tar_gz entries
      = .ok ((entries.find? (fun e => strEndsWith e.path "/uv")).map
          (fun e => { name := "uv", bytes := e.bytes, mode := some 0o755 })) := by
  induction entries with
  | nil => rfl
  | cons e rest ih =>
    by_cases hm : strEndsWith e.path "/uv" = true
    · have hx : strEndsWith e.path "/uvx" = false := by
        by_cases hx : strEndsWith e.path "/uvx" = true
        · exact absurd hm (by simp [strEndsWith_uvx_not_uv e.path hx])
        · simpa using hx
      simp [extract_tar_gz, List.find?, hm, hx]
    · simp only [Bool.not_eq_true] at hm
      simp [extract_tar_gz, List.find?, hm, ih]

/-- C4: for every gzipped-tar archive, the extractor writes the bytes
of the first entry whose path ends with "/uv", never selects an entry
whose path ends with "/uvx" (such a path fails the "/uv" test), stops
after the first match, and sets mode 0o755 on the written file; on
entries {"pkg/uv" ↦ B1, "pkg/uvx" ↦ B2} it writes exactly B1. -/
theorem c4_tar_extraction :
    (∀ entries : List TarEntry, extract_tar_gz entries
        = .ok ((entries.find? (fun e => strEndsWith e.path "/uv")).map
            (fun e => { name := "uv", bytes := e.bytes, mode := some 0o755 }))) ∧
    (∀ p : String, strEndsWith p "/uvx" = true → strEndsWith p "/uv" = false) ∧
    extract_tar_gz [⟨"pkg/uv", [1, 2, 3]⟩, ⟨"pkg/uvx", [9, 9]⟩]
      = .ok (some { name := "uv", bytes := [1, 2, 3], mode := some 0o755 }) :=
  ⟨extract_tar_gz_eq_find, strEndsWith_uvx_not_uv, by rfl⟩

/-- Witness for C4 at the concrete path "pkg/uvx". -/
theorem c4_tar_extraction_witness :
    strEndsWith "pkg/uvx" "/uvx" = true ∧ strEndsWith "pkg/uvx" "/uv" = false :=
  ⟨by decide, c4_tar_extraction.2.1 "pkg/uvx" (by decide)⟩

/-- C5: when no archive entry matches the target binary name (zip: no
name ending with "uv.exe"; tar: no path ending with "/uv"), extraction
still returns success and writes no file. -/
theorem c5_no_match_success :
    (∀ zs : List ZipEntry, (∀ e ∈ zs, strEndsWith e.name "uv.exe" = false) →
        extract_zip zs = .ok none) ∧
    (∀ ts : List TarEntry, (∀ e ∈ ts, strEndsWith e.path "/uv" = false) →
        extract_tar_gz ts = .ok none) := by
  constructor
  · intro zs h
    induction zs with
    | nil => rfl
    | cons e rest ih =>
      have he := h e (List.mem_cons_self e rest)
      simp [extract_zip, he]
      exact ih (fun e2 h2 => h e2 (List.mem_cons_of_mem e h2))
  · intro ts h
    induction ts with
    | nil => rfl
    | cons e rest ih =>
      have he := h e (List.mem_cons_self e rest)
      simp [extract_tar_gz, he]
      exact ih (fun e2 h2 => h e2 (List.mem_cons_of_mem e h2))

/-- Witness for C5 on a zip with only a README and a tar with only the
uvx sibling binary. -/
theorem c5_no_match_success_witness :
    extract_zip [⟨"README", [2]⟩] = .ok none ∧
    extract_tar_gz [⟨"pkg/uvx", [9, 9]⟩] = .ok none :=
  ⟨c5_no_match_success.1 [⟨"README", [2]⟩] (by decide),
   c5_no_match_success.2 [⟨"pkg/uvx", [9, 9]⟩] (by decide)⟩

/-- Helper lemma: ready-event count is additive over trace append. -/
theorem count_ready_events_append (a b : List Effect) :
    count_ready_events (a ++ b) = count_ready_events a + count_ready_events b := by
  simp [count_ready_events, List.filter_append]

/-- Helper lemma: log-event count is additive over trace append. -/
theorem count_log_events_append (a b : List Effect) :
    count_log_events (a ++ b) = count_log_events a + count_log_events b := by
  simp [count_log_events, List.filter_append]

/-- Helper lemma: the state after one processed line only or-s the
marker test result into the ready flag. -/
theorem process_log_line_state (s : ServerState) (line : String) (b : Bool) :
    (process_log_line s line b).1
      = { s with ready := s.ready || server_ready_marker line } := by
  by_cases hm : server_ready_marker line = true
  · simp [process_log_line, hm]
  · simp only [Bool.not_eq_true] at hm
    simp [process_log_line, hm]

/-- Helper lemma: one processed line emits one readiness notification
per marker match. -/
theorem count_ready_events_per_line (s : ServerState) (line : String) (b : Bool) :
    count_ready_events (process_log_line s line b).2
      = if server_ready_marker line then 1 else 0 := by
  by_cases hm : server_ready_marker line = true
  · simp [process_log_line, hm, count_ready_events]
  · simp only [Bool.not_eq_true] at hm
    simp [process_log_line, hm, count_ready_events]

/-- Helper lemma: one processed line emits exactly one log-line event. -/
theorem count_log_events_per_line (s : ServerState) (line : String) (b : Bool) :
    count_log_events (process_log_line s line b).2 = 1 := by
  by_cases hm : server_ready_marker line = true
  · simp [process_log_line, hm, count_log_events]
  · simp only [Bool.not_eq_true] at hm
    simp [process_log_line, hm, count_log_events]

/-- C2 counterexample: processing the same Uvicorn readiness line
twice emits the `server-ready` event twice, not exactly once — every
matching line re-emits the readiness notification (lib.rs lines
1016-1024 have no first-match guard). -/
theorem c2_ready_event_counterexample :
    count_ready_events (run_log_lines ⟨some 42, some 7987, false⟩
      [("INFO: Uvicorn running on http://0.0.0.0:7987", false),
       ("INFO: Uvicorn running on http://0.0.0.0:7987", false)]).2 = 2 ∧
    ¬ count_ready_events (run_log_lines ⟨some 42, some 7987, false⟩
      [("INFO: Uvicorn running on http://0.0.0.0:7987", false),
       ("INFO: Uvicorn running on http://0.0.0.0:7987", false)]).2 = 1 := by
  decide

/-- C2 amended: the first matching line sets ready to true and
subsequent matching lines leave the flag unchanged (the flag after a
run is the old flag or-ed with "some line matched"), every line emits
exactly one log-line event, but a readiness notification is emitted
once per matching line (not exactly once per start). -/
theorem c2_readiness_amended (s : ServerState) (lines : List (String × Bool)) :
    (run_log_lines s lines).1.ready
        = (s.ready || lines.any (fun lb => server_ready_marker lb.1)) ∧
    count_ready_events (run_log_lines s lines).2
        = (lines.filter (fun lb => server_ready_marker lb.1)).length ∧
    count_log_events (run_log_lines s lines).2 = lines.length ∧
    (run_log_lines s lines).1.process = s.process ∧
    (run_log_lines s lines).1.port = s.port := by
  induction lines generalizing s with
  | nil => simp [run_log_lines, count_ready_events, count_log_events]
  | cons lb rest ih =>
    obtain ⟨h1, h2, h3, h4, h5⟩ :=
      ih { s with ready := s.ready || server_ready_marker lb.1 }
    simp [run_log_lines, count_ready_events_append, count_log_events_append,
      count_ready_events_per_line, count_log_events_per_line,
      process_log_line_state, h1, h2, h3, h4, h5, Bool.or_assoc,
      List.filter_cons, apply_ite List.length]
    constructor
    · split <;> omega
    · omega

/-- Witness for C2 amended at one matching and one plain line. -/
theorem c2_readiness_amended_witness :
    (run_log_lines ⟨some 42, some 7987, false⟩
        [("SERVER READY", false), ("hello", true)]).1.ready = true ∧
    count_ready_events (run_log_lines ⟨some 42, some 7987, false⟩
        [("SERVER READY", false), ("hello", true)]).2 = 1 ∧
    count_log_events (run_log_lines ⟨some 42, some 7987, false⟩
        [("SERVER READY", false), ("hello", true)]).2 = 2 :=
  have h := c2_readiness_amended ⟨some 42, some 7987, false⟩
      [("SERVER READY", false), ("hello", true)]
  ⟨h.1.trans (by decide), (h.2.1).trans (by decide), (h.2.2.1).trans (by decide)⟩

/-- C3 counterexample: for a concrete line, the reader-loop body
performs the readiness check before the log-file append and flush, not
after them as claimed — `process_log_line` (echo, emit, readiness
check) runs first, the append+flush follows it (lib.rs lines
1038-1043). -/
theorem c3_line_order_counterexample :
    (reader_loop_body ⟨some 42, some 7987, false⟩ "hello" false true).2
      = [Effect.consoleEcho "hello" false, Effect.emitLogEvent "hello",
         Effect.readinessCheck "hello", Effect.logAppend "hello", Effect.logFlush] ∧
    (reader_loop_body ⟨some 42, some 7987, false⟩ "hello" false true).2
      ≠ [Effect.consoleEcho "hello" false, Effect.emitLogEvent "hello",
         Effect.logAppend "hello", Effect.logFlush, Effect.readinessCheck "hello"] := by
  decide

/-- C3 amended: for every line read from either stream, the reader
performs, in this order: console echo, event emission to observers,
the readiness check (with the ready event on a match), and then the
append of the line to the log file followed by an immediate flush. -/
theorem c3_line_order_amended (s : ServerState) (line : String) (isStderr : Bool) :
    (reader_loop_body s line isStderr true).2
      = [Effect.consoleEcho line isStderr, Effect.emitLogEvent line,
         Effect.readinessCheck line]
        ++ (if server_ready_marker line then [Effect.emitReadyEvent] else [])
        ++ [Effect.logAppend line, Effect.logFlush] := by
  by_cases hm : server_ready_marker line = true
  · simp [reader_loop_body, process_log_line, hm]
  · simp only [Bool.not_eq_true] at hm
    simp [reader_loop_body, process_log_line, hm]

/-- Witness for C3 amended at the concrete line "SERVER READY". -/
theorem c3_line_order_amended_witness :
    (reader_loop_body ⟨some 42, some 7987, false⟩ "SERVER READY" false true).2
      = [Effect.consoleEcho "SERVER READY" false,
         Effect.emitLogEvent "SERVER READY",
         Effect.readinessCheck "SERVER READY"]
        ++ (if server_ready_marker "SERVER READY" then [Effect.emitReadyEvent]
            else [])
        ++ [Effect.logAppend "SERVER READY", Effect.logFlush] :=
  c3_line_order_amended ⟨some 42, some 7987, false⟩ "SERVER READY" false

/-- Helper lemma: when any of the three fail-fast preconditions of
start trips (already running, deps not synced, uv missing), the state
is returned unchanged. -/
theorem start_precondition_state (s : ServerState) (env : StartEnv) (p : Nat)
    (h : s.process.isSome = true ∨ env.venvExists = false ∨ env.uvBinaryExists = false) :
    (start_engine_server s env p).1 = s := by
  rcases h with h | h | h
  · simp [start_engine_server, h]
  · by_cases hp : s.process.isSome = true
    · simp [start_engine_server, hp]
    · simp only [Bool.not_eq_true] at hp
      simp [start_engine_server, hp, h]
  · by_cases hp : s.process.isSome = true
    · simp [start_engine_server, hp]
    · simp only [Bool.not_eq_true] at hp
      by_cases hv : env.venvExists = true
      · simp [start_engine_server, hp, hv, h]
      · simp only [Bool.not_eq_true] at hv
        simp [start_engine_server, hp, hv]

/-- Helper lemma: when the preconditions pass, the state after start
is one of: the input with ready cleared (sync/spawn failure), a fully
populated running state with ready false, or the fully cleared state
after an immediate exit (with ready still false, reset at step 4). -/
theorem start_state_cases (s : ServerState) (env : StartEnv) (p : Nat)
    (hp : s.process = none) (hv : env.venvExists = true)
    (hu : env.uvBinaryExists = true) :
    (start_engine_server s env p).1 = { s with ready := false } ∨
    (∃ pid, (start_engine_server s env p).1
        = { process := some pid, port := some p, ready := false }) ∨
    (start_engine_server s env p).1
        = { process := none, port := none, ready := false } := by
  rcases env with ⟨venv, uvb, sync, spawn, cfg, v1, v2, grace, logl⟩
  simp only at hv hu
  subst hv hu
  cases sync with
  | none => left; simp [start_engine_server, hp]
  | some sb =>
    cases spawn with
    | none => left; simp [start_engine_server, hp]
    | some pid =>
      cases grace with
      | exited st => right; right; simp [start_engine_server, hp]
      | stillRunning => right; left; exact ⟨pid, by simp [start_engine_server, hp]⟩
      | checkError => right; left; exact ⟨pid, by simp [start_engine_server, hp]⟩

/-- C1 counterexample: a reachable run refuting the invariant. From a
fresh state, start succeeds, one Uvicorn readiness line sets
`ready := true` (invariant still holds), then `is_server_running`
polls the now-exited child: it clears `process` and `port` but leaves
`ready` true, so `ready == true` with an empty handle — the claimed
invariant is false after that operation. -/
theorem c1_invariant_counterexample :
    state_invariant ((process_log_line
        ((start_engine_server ⟨none, none, false⟩ runningEnv 7987).1)
        "INFO: Uvicorn running on http://0.0.0.0:7987" false).1) = true ∧
    is_server_running ((process_log_line
        ((start_engine_server ⟨none, none, false⟩ runningEnv 7987).1)
        "INFO: Uvicorn running on http://0.0.0.0:7987" false).1)
        (TryWaitResult.exited 0)
      = (⟨none, none, true⟩, false) ∧
    state_invariant (⟨none, none, true⟩ : ServerState) = false := by
  decide

/-- C1 amended: the port-iff-handle half of the invariant is preserved
by every operation, ready is reset to false before each start attempt
that passes the fail-fast checks, and the full invariant is preserved
by start, by stop, and by line processing while a process is tracked —
but not by `is_server_running`, which clears the handle and port of an
exited child without resetting `ready`. -/
theorem c1_invariant_amended :
    (∀ s env p, port_handle_inv s = true →
        port_handle_inv (start_engine_server s env p).1 = true) ∧
    (∀ s k, port_handle_inv s = true →
        port_handle_inv (stop_server_sync s k).1 = true) ∧
    (∀ s w, port_handle_inv s = true →
        port_handle_inv (is_server_running s w).1 = true) ∧
    (∀ s line b, port_handle_inv s = true →
        port_handle_inv (process_log_line s line b).1 = true) ∧
    (∀ s env p, s.process = none → env.venvExists = true →
        env.uvBinaryExists = true →
        ((start_engine_server s env p).1).ready = false) ∧
    (∀ s env p, state_invariant s = true →
        state_invariant (start_engine_server s env p).1 = true) ∧
    (∀ s k, state_invariant s = true →
        state_invariant (stop_server_sync s k).1 = true) ∧
    (∀ s line b, s.process.isSome = true → state_invariant s = true →
        state_invariant (process_log_line s line b).1 = true) := by
  have hstart : ∀ s env p, state_invariant s = true →
      state_invariant (start_engine_server s env p).1 = true := by
    intro s env p h
    by_cases hp : s.process.isSome = true
    · rw [start_precondition_state s env p (Or.inl hp)]; exact h
    · have hp := Option.not_isSome_iff_eq_none.mp hp
      by_cases hv : env.venvExists = true
      · by_cases hu : env.uvBinaryExists = true
        · rcases start_state_cases s env p hp hv hu with hc | ⟨pid, hc⟩ | hc <;>
            rw [hc] <;>
            simp_all [state_invariant, ready_handle_inv, port_handle_inv]
        · simp only [Bool.not_eq_true] at hu
          rw [start_precondition_state s env p (Or.inr (Or.inr hu))]; exact h
      · simp only [Bool.not_eq_true] at hv
        rw [start_precondition_state s env p (Or.inr (Or.inl hv))]; exact h
  refine ⟨?_, ?_, ?_, ?_, ?_, hstart, ?_, ?_⟩
  · intro s env p h
    by_cases hp : s.process.isSome = true
    · rw [start_precondition_state s env p (Or.inl hp)]; exact h
    · have hp := Option.not_isSome_iff_eq_none.mp hp
      by_cases hv : env.venvExists = true
      · by_cases hu : env.uvBinaryExists = true
        · rcases start_state_cases s env p hp hv hu with hc | ⟨pid, hc⟩ | hc <;>
            rw [hc] <;> simp_all [port_handle_inv]
        · simp only [Bool.not_eq_true] at hu
          rw [start_precondition_state s env p (Or.inr (Or.inr hu))]; exact h
      · simp only [Bool.not_eq_true] at hv
        rw [start_precondition_state s env p (Or.inr (Or.inl hv))]; exact h
  · intro s k h
    cases hs : s.process with
    | none => simp [stop_server_sync, hs, h]
    | some pid => cases k <;> simp [stop_server_sync, hs, port_handle_inv]
  · intro s w h
    cases hs : s.process with
    | none => simp [is_server_running, hs, h]
    | some pid => cases w <;> simp_all [is_server_running, hs, port_handle_inv]
  · intro s line b h
    rw [process_log_line_state]
    simp_all [port_handle_inv]
  · intro s env p hp hv hu
    rcases start_state_cases s env p hp hv hu with hc | ⟨pid, hc⟩ | hc <;> rw [hc]
  · intro s k h
    cases hs : s.process with
    | none => simp [stop_server_sync, hs, h]
    | some pid =>
      cases k <;> simp [stop_server_sync, hs, state_invariant,
        ready_handle_inv, port_handle_inv]
  · intro s line b hp h
    rw [process_log_line_state]
    simp_all [state_invariant, ready_handle_inv, port_handle_inv]

/-- Witness for C1 amended, instantiating the stop conjunct at a
running, ready state. -/
theorem c1_invariant_amended_witness :
    state_invariant ⟨some 3, some 80, true⟩ = true ∧
    state_invariant (stop_server_sync ⟨some 3, some 80, true⟩
        KillTreeResult.failed).1 = true :=
  ⟨by decide, c1_invariant_amended.2.2.2.2.2.2.1 ⟨some 3, some 80, true⟩
    KillTreeResult.failed (by decide)⟩

/-- Helper lemma: the log excerpt is at most `n` lines long. -/
theorem last_lines_length_le (n : Nat) (l : List String) :
    (last_lines n l).length ≤ n := by
  simp [last_lines, List.length_take]

/-- Helper lemma: the log excerpt is a suffix of the log lines, hence
the trailing lines in their original oldest-first order. -/
theorem last_lines_suffix (n : Nat) (l : List String) : last_lines n l <:+ l :=
  List.reverse_prefix.mp (by
    rw [last_lines, List.reverse_reverse]
    exact List.take_prefix n l.reverse)

/-- C6: when the grace-period poll finds the child already exited,
start fails with an immediate-exit error carrying the exit status and
the tail excerpt of the log — at most 30 lines, a suffix of the log in
original order — and both the process handle and the port are
cleared. -/
theorem c6_immediate_exit (s : ServerState) (env : StartEnv) (p pid : Nat)
    (b : Bool) (status : Int)
    (hp : s.process = none) (hv : env.venvExists = true)
    (hu : env.uvBinaryExists = true) (hs : env.syncRun = some b)
    (hsp : env.spawnResult = some pid) (hg : env.graceWait = .exited status) :
    (start_engine_server s env p).2.2
        = .error (.immediateExit status (last_lines 30 env.logLines)) ∧
    (last_lines 30 env.logLines).length ≤ 30 ∧
    last_lines 30 env.logLines <:+ env.logLines ∧
    ((start_engine_server s env p).1).process = none ∧
    ((start_engine_server s env p).1).port = none := by
  refine ⟨?_, last_lines_length_le 30 env.logLines,
    last_lines_suffix 30 env.logLines, ?_, ?_⟩
  all_goals simp [start_engine_server, hp, hv, hu, hs, hsp, hg]

/-- Witness for C6 in the crash environment. -/
theorem c6_immediate_exit_witness :
    (start_engine_server ⟨none, none, false⟩ crashEnv 7987).2.2
        = .error (.immediateExit 1 (last_lines 30 ["a", "b"])) ∧
    (last_lines 30 ["a", "b"]).length ≤ 30 ∧
    last_lines 30 ["a", "b"] <:+ ["a", "b"] ∧
    ((start_engine_server ⟨none, none, false⟩ crashEnv 7987).1).process = none ∧
    ((start_engine_server ⟨none, none, false⟩ crashEnv 7987).1).port = none :=
  c6_immediate_exit ⟨none, none, false⟩ crashEnv 7987 42 true 1
    rfl rfl rfl rfl rfl rfl

/-- C7: when a process handle is already stored, start fails with the
already-running error carrying the stored port (via `unwrap_or(0)`),
performs no side effect at all, leaves the state unchanged, and in
particular never spawns a second supervised process. -/
theorem c7_already_running (s : ServerState) (env : StartEnv) (p pid : Nat)
    (h : s.process = some pid) :
    start_engine_server s env p
        = (s, [], .error (.alreadyRunning (s.port.getD 0))) ∧
    spawns_process (start_engine_server s env p).2.1 = false := by
  have hmain : start_engine_server s env p
      = (s, [], .error (.alreadyRunning (s.port.getD 0))) := by
    simp [start_engine_server, h]
  exact ⟨hmain, by rw [hmain]; rfl⟩

/-- Witness for C7 at a running state on port 7987. -/
theorem c7_already_running_witness :
    start_engine_server ⟨some 42, some 7987, true⟩ runningEnv 9000
        = (⟨some 42, some 7987, true⟩, [],
           .error (.alreadyRunning ((some 7987 : Option Nat).getD 0))) ∧
    spawns_process (start_engine_server ⟨some 42, some 7987, true⟩
        runningEnv 9000).2.1 = false :=
  c7_already_running ⟨some 42, some 7987, true⟩ runningEnv 9000 42 rfl

/-- C8: stop fails with the not-running error when the handle is
empty, and otherwise always succeeds — for every tree-kill outcome,
including the fallback to a direct kill — clearing handle, port and
ready; afterwards isRunning answers false under every poll outcome,
the port is empty, and a second stop fails with the not-running
error. -/
theorem c8_stop_semantics (s : ServerState) (k : KillTreeResult) (pid : Nat)
    (h : s.process = some pid) :
    (stop_server_sync s k).2.2
        = .ok ("Server stopped (PID: " ++ toString pid ++ ")") ∧
    (stop_server_sync s k).1 = ⟨none, none, false⟩ ∧
    (∀ w, is_server_running (stop_server_sync s k).1 w
        = (⟨none, none, false⟩, false)) ∧
    (∀ k2, stop_server_sync (stop_server_sync s k).1 k2
        = (⟨none, none, false⟩, [], .error "No server is currently running")) ∧
    (∀ s2 : ServerState, ∀ k2, s2.process = none →
        stop_server_sync s2 k2
          = (s2, [], .error "No server is currently running")) := by
  have hstop : (stop_server_sync s k).1 = ⟨none, none, false⟩ := by
    cases k <;> simp [stop_server_sync, h]
  refine ⟨?_, hstop, ?_, ?_, ?_⟩
  · cases k <;> simp [stop_server_sync, h]
  · intro w; rw [hstop]; cases w <;> rfl
  · intro k2; rw [hstop]; rfl
  · intro s2 k2 h2; simp [stop_server_sync, h2]

/-- Witness for C8 at a ready running state with a failed tree kill. -/
theorem c8_stop_semantics_witness :
    (stop_server_sync ⟨some 7, some 7987, true⟩ KillTreeResult.failed).2.2
        = .ok ("Server stopped (PID: " ++ toString 7 ++ ")") ∧
    (stop_server_sync ⟨some 7, some 7987, true⟩ KillTreeResult.failed).1
        = ⟨none, none, false⟩ :=
  ⟨(c8_stop_semantics ⟨some 7, some 7987, true⟩ KillTreeResult.failed 7 rfl).1,
   (c8_stop_semantics ⟨some 7, some 7987, true⟩ KillTreeResult.failed 7 rfl).2.1⟩

/-- C9: the credential is resolved by checking the configured value
(when non-empty), then HF_TOKEN, then HUGGING_FACE_HUB_TOKEN; a found
value is injected into the child environment under both names; and
when nothing is found the start still proceeds to a successful spawn
with no extra variables. -/
theorem c9_hf_token :
    (∀ cfg : String, ∀ v1 v2, cfg.isEmpty = false →
        resolve_hf_token cfg v1 v2 = some cfg) ∧
    (∀ cfg : String, ∀ t v2, cfg.isEmpty = true →
        resolve_hf_token cfg (some t) v2 = some t) ∧
    (∀ cfg : String, ∀ v2, cfg.isEmpty = true →
        resolve_hf_token cfg none v2 = v2) ∧
    (∀ t, hf_env_injection (some t)
        = [("HF_TOKEN", t), ("HUGGING_FACE_HUB_TOKEN", t)]) ∧
    hf_env_injection none = [] ∧
    (∀ s env p, ∀ b : Bool, ∀ pid, s.process = none → env.venvExists = true →
        env.uvBinaryExists = true → env.syncRun = some b →
        env.spawnResult = some pid → env.graceWait = .stillRunning →
        env.configHuggingface = "" → env.hfTokenVar = none →
        env.hfHubTokenVar = none →
        (start_engine_server s env p).2.1
            = [Effect.runSync, Effect.spawnServer pid []] ∧
        (start_engine_server s env p).2.2 = .ok { port := p, pid := pid }) := by
  refine ⟨?_, ?_, ?_, ?_, rfl, ?_⟩
  · intro cfg v1 v2 h; simp [resolve_hf_token, h]
  · intro cfg t v2 h; simp [resolve_hf_token, h]
  · intro cfg v2 h; simp [resolve_hf_token, h]
  · intro t; rfl
  · intro s env p b pid hp hv hu hs hsp hg hc h1 h2
    constructor <;>
      simp [start_engine_server, hp, hv, hu, hs, hsp, hg, hc, h1, h2,
        resolve_hf_token, hf_env_injection,
        show ("" : String).isEmpty = true from rfl]

/-- Witness for C9: a fresh start in the token-free running
environment spawns with an empty extra environment and succeeds. -/
theorem c9_hf_token_witness :
    (start_engine_server ⟨none, none, false⟩ runningEnv 7987).2.1
        = [Effect.runSync, Effect.spawnServer 42 []] ∧
    (start_engine_server ⟨none, none, false⟩ runningEnv 7987).2.2
        = .ok { port := 7987, pid := 42 } :=
  c9_hf_token.2.2.2.2.2 ⟨none, none, false⟩ runningEnv 7987 true 42
    rfl rfl rfl rfl rfl rfl rfl rfl rfl

/-- C10: when isRunning polls a tracked child and the status check
itself errors, it clears both handle and port and answers false; in
contrast, start's grace-period poll on a status-check error keeps the
handle and port and still reports success. -/
theorem c10_status_error_contrast :
    (∀ s : ServerState, ∀ pid, s.process = some pid →
        is_server_running s .checkError
          = ({ s with process := none, port := none }, false)) ∧
    (∀ s env p, ∀ b : Bool, ∀ pid, s.process = none →
        env.venvExists = true → env.uvBinaryExists = true →
        env.syncRun = some b → env.spawnResult = some pid →
        env.graceWait = .checkError →
        (start_engine_server s env p).2.2 = .ok { port := p, pid := pid } ∧
        ((start_engine_server s env p).1).process = some pid ∧
        ((start_engine_server s env p).1).port = some p) := by
  constructor
  · intro s pid h; simp [is_server_running, h]
  · intro s env p b pid hp hv hu hs hsp hg
    refine ⟨?_, ?_, ?_⟩ <;> simp [start_engine_server, hp, hv, hu, hs, hsp, hg]

/-- Witness for C10: poll error inside isRunning at a running state,
and poll error inside start's grace window. -/
theorem c10_status_error_contrast_witness :
    is_server_running ⟨some 42, some 7987, false⟩ .checkError
        = (⟨none, none, false⟩, false) ∧
    (start_engine_server ⟨none, none, false⟩ pollErrEnv 7987).2.2
        = .ok { port := 7987, pid := 42 } :=
  ⟨c10_status_error_contrast.1 ⟨some 42, some 7987, false⟩ 42 rfl,
   (c10_status_error_contrast.2 ⟨none, none, false⟩ pollErrEnv 7987 true 42
     rfl rfl rfl rfl rfl rfl).1⟩

end Biome
